import Mathlib

/-!
Verification of the record-integrity scheme of the attendance/voting
application (Supabase-backed Next.js client).  The development embeds the
hashing, canonicalization, submission and verification logic of the source
files as executable Lean definitions and proves or refutes the frozen
claims about them.

JavaScript strings are modelled as `List Char` (Unicode scalar values);
`TextEncoder.encode` is modelled by an explicit UTF-8 byte encoder, and
`crypto.subtle.digest with SHA-256` by a full executable SHA-256 over byte
lists (`Nat` values below 256), so concrete digests can be evaluated by the
kernel.
-/

/-- JavaScript strings, modelled as lists of Unicode scalar values. -/
abbrev Str := List Char

/-- The WhiteSpace and LineTerminator code points stripped by
`String.prototype.trim` (ECMA-262): TAB, LF, VT, FF, CR, SP, NBSP, OGHAM
space mark, the Zs range U+2000..U+200A, LS, PS, NNBSP, MMSP, IDEOGRAPHIC
space and the BOM U+FEFF. -/
def jsWhitespace (c : Char) : Bool :=
  c.toNat == 9 || c.toNat == 10 || c.toNat == 11 || c.toNat == 12 ||
  c.toNat == 13 || c.toNat == 32 || c.toNat == 160 || c.toNat == 0x1680 ||
  (0x2000 ≤ c.toNat && c.toNat ≤ 0x200A) || c.toNat == 0x2028 ||
  c.toNat == 0x2029 || c.toNat == 0x202F || c.toNat == 0x205F ||
  c.toNat == 0x3000 || c.toNat == 0xFEFF

/-- `String.prototype.trim`: strip leading and trailing JS whitespace. -/
def jsTrim (s : Str) : Str :=
  ((s.dropWhile jsWhitespace).reverse.dropWhile jsWhitespace).reverse

/-- UTF-8 encoding of one Unicode scalar value (`TextEncoder`). -/
def utf8Char (c : Char) : List Nat :=
  let n := c.toNat
  if n < 0x80 then [n]
  else if n < 0x800 then [0xC0 + n / 0x40, 0x80 + n % 0x40]
  else if n < 0x10000 then
    [0xE0 + n / 0x1000, 0x80 + n / 0x40 % 0x40, 0x80 + n % 0x40]
  else
    [0xF0 + n / 0x40000, 0x80 + n / 0x1000 % 0x40, 0x80 + n / 0x40 % 0x40,
     0x80 + n % 0x40]

/-- UTF-8 encoding of a string (`TextEncoder.encode`). -/
def utf8 (s : Str) : List Nat := (s.map utf8Char).flatten

/-! ## SHA-256 (crypto.subtle.digest with SHA-256), over byte lists -/

/-- Right rotation of a 32-bit word. -/
def rotr (n x : Nat) : Nat := ((x >>> n) ||| (x <<< (32 - n))) % 4294967296

/-- The SHA-256 choice function. -/
def ch (x y z : Nat) : Nat := (x &&& y) ^^^ ((x ^^^ 4294967295) &&& z)

/-- The SHA-256 majority function. -/
def maj (x y z : Nat) : Nat := (x &&& y) ^^^ (x &&& z) ^^^ (y &&& z)

/-- SHA-256 Σ0. -/
def bigSigma0 (x : Nat) : Nat := rotr 2 x ^^^ rotr 13 x ^^^ rotr 22 x

/-- SHA-256 Σ1. -/
def bigSigma1 (x : Nat) : Nat := rotr 6 x ^^^ rotr 11 x ^^^ rotr 25 x

/-- SHA-256 σ0. -/
def smallSigma0 (x : Nat) : Nat := rotr 7 x ^^^ rotr 18 x ^^^ (x >>> 3)

/-- SHA-256 σ1. -/
def smallSigma1 (x : Nat) : Nat := rotr 17 x ^^^ rotr 19 x ^^^ (x >>> 10)

/-- The 64 SHA-256 round constants. -/
def sha256K : List Nat :=
  [1116352408, 1899447441, 3049323471, 3921009573, 961987163, 1508970993,
   2453635748, 2870763221, 3624381080, 310598401, 607225278, 1426881987,
   1925078388, 2162078206, 2614888103, 3248222580, 3835390401, 4022224774,
   264347078, 604807628, 770255983, 1249150122, 1555081692, 1996064986,
   2554220882, 2821834349, 2952996808, 3210313671, 3336571891, 3584528711,
   113926993, 338241895, 666307205, 773529912, 1294757372, 1396182291,
   1695183700, 1986661051, 2177026350, 2456956037, 2730485921, 2820302411,
   3259730800, 3345764771, 3516065817, 3600352804, 4094571909, 275423344,
   430227734, 506948616, 659060556, 883997877, 958139571, 1322822218,
   1537002063, 1747873779, 1955562222, 2024104815, 2227730452, 2361852424,
   2428436474, 2756734187, 3204031479, 3329325298]

/-- The eight 32-bit working registers of the SHA-256 compression loop. -/
structure H8 where
  a : Nat
  b : Nat
  c : Nat
  d : Nat
  e : Nat
  f : Nat
  g : Nat
  h : Nat

/-- The SHA-256 initial hash value. -/
def sha256init : H8 :=
  ⟨1779033703, 3144134277, 1013904242, 2773480762,
   1359893119, 2600822924, 528734635, 1541459225⟩

/-- The message length as eight big-endian bytes (bit count). -/
def lenBytes8 (n : Nat) : List Nat :=
  [n >>> 56 % 256, n >>> 48 % 256, n >>> 40 % 256, n >>> 32 % 256,
   n >>> 24 % 256, n >>> 16 % 256, n >>> 8 % 256, n % 256]

/-- SHA-256 padding: append 0x80, zeros to 56 mod 64, then the bit length. -/
def sha256pad (msg : List Nat) : List Nat :=
  msg ++ [128] ++ List.replicate ((119 - msg.length % 64) % 64) 0 ++
    lenBytes8 (8 * msg.length)

/-- Split a byte list into `k` chunks of 64 (structural on the counter). -/
def chunk64Aux : Nat → List Nat → List (List Nat)
  | 0, _ => []
  | k + 1, l => l.take 64 :: chunk64Aux k (l.drop 64)

/-- Split a padded message into its 64-byte blocks. -/
def chunk64 (l : List Nat) : List (List Nat) := chunk64Aux (l.length / 64) l

/-- Big-endian 32-bit words off the front of a block (16 of them). -/
def toWordsAux : Nat → List Nat → List Nat
  | 0, _ => []
  | k + 1, bytes =>
    (bytes.getD 0 0 <<< 24 + bytes.getD 1 0 <<< 16 + bytes.getD 2 0 <<< 8 +
      bytes.getD 3 0) :: toWordsAux k (bytes.drop 4)

/-- The 16 message words of one 64-byte block. -/
def toWords (block : List Nat) : List Nat := toWordsAux 16 block

/-- One message-schedule extension step: σ1(w16-2)+w16-7+σ0(w16-15)+w16-16. -/
def schedStep (ws : List Nat) : Nat :=
  let n := ws.length
  (smallSigma1 (ws.getD (n - 2) 0) + ws.getD (n - 7) 0 +
    smallSigma0 (ws.getD (n - 15) 0) + ws.getD (n - 16) 0) % 4294967296

/-- Extend the message schedule by `k` words. -/
def extendSched : Nat → List Nat → List Nat
  | 0, ws => ws
  | k + 1, ws => extendSched k (ws ++ [schedStep ws])

/-- The full 64-word message schedule of a block. -/
def messageSchedule (block : List Nat) : List Nat :=
  extendSched 48 (toWords block)

/-- One SHA-256 round with round constant and message word `kw`. -/
def compressStep (s : H8) (kw : Nat × Nat) : H8 :=
  let t1 := (s.h + bigSigma1 s.e + ch s.e s.f s.g + kw.1 + kw.2) % 4294967296
  let t2 := (bigSigma0 s.a + maj s.a s.b s.c) % 4294967296
  ⟨(t1 + t2) % 4294967296, s.a, s.b, s.c, (s.d + t1) % 4294967296, s.e, s.f,
   s.g⟩

/-- Compress one 64-byte block into the running hash state. -/
def compressBlock (s : H8) (block : List Nat) : H8 :=
  let w := messageSchedule block
  let t := (sha256K.zip w).foldl compressStep s
  ⟨(s.a + t.a) % 4294967296, (s.b + t.b) % 4294967296,
   (s.c + t.c) % 4294967296, (s.d + t.d) % 4294967296,
   (s.e + t.e) % 4294967296, (s.f + t.f) % 4294967296,
   (s.g + t.g) % 4294967296, (s.h + t.h) % 4294967296⟩

/-- The four big-endian bytes of a 32-bit word. -/
def wordBytes (w : Nat) : List Nat :=
  [w >>> 24 % 256, w >>> 16 % 256, w >>> 8 % 256, w % 256]

/-- The eight state words in emission order. -/
def stateWords (s : H8) : List Nat := [s.a, s.b, s.c, s.d, s.e, s.f, s.g, s.h]

/-- The 32 digest bytes of a final SHA-256 state. -/
def digestBytes (s : H8) : List Nat := ((stateWords s).map wordBytes).flatten

/-- SHA-256 of a byte list, as its 32 digest bytes. -/
def sha256 (msg : List Nat) : List Nat :=
  digestBytes ((chunk64 (sha256pad msg)).foldl compressBlock sha256init)

/-! ## Hex rendering: `b.toString(16).padStart(2, '0')` per digest byte -/

/-- Base-16 digits of `n`, most significant first (`Number.prototype.toString`
with radix 16; lowercase).  Structural on a fuel that bounds the digit
count. -/
def natToBase16 : Nat → Nat → Str
  | 0, _ => []
  | fuel + 1, n =>
    if n < 16 then [Nat.digitChar n]
    else natToBase16 fuel (n / 16) ++ [Nat.digitChar (n % 16)]

/-- `n.toString(16)` for a byte value. -/
def jsToString16 (n : Nat) : Str := natToBase16 (n + 1) n

/-- `padStart(2, '0')`. -/
def padStart2 (s : Str) : Str := List.replicate (2 - s.length) '0' ++ s

/-- One digest byte as two zero-padded lowercase hex characters. -/
def hexByte (b : Nat) : Str := padStart2 (jsToString16 b)

/-- The digest bytes as one hex string: map to hex pairs and concatenate. -/
def digestHex (l : List Nat) : Str := (l.map hexByte).flatten

/-! ## Canonicalization and hash functions of the source

Two generator-side schemes and one verifier-side scheme appear in the
source: the vote page builds the template string with pipe separators, the
attendance page concatenates its three fields with no separator, and the
dashboard verifier rebuilds an attendance string with pipe separators. -/

/-- The vote generator canonical string (vote page `generateHash`, template
with pipe separators between electionId, voterName, voteData, timestamp). -/
def voteCanon (electionId voterName voteData timestamp : Str) : Str :=
  electionId ++ '|' :: (voterName ++ '|' :: (voteData ++ '|' :: timestamp))

/-- `generateHash` of the vote page: SHA-256 over the UTF-8 bytes of the
pipe-separated canonical string, rendered as lowercase hex. -/
def generateHashVote (electionId voterName voteData timestamp : Str) : Str :=
  digestHex (sha256 (utf8 (voteCanon electionId voterName voteData timestamp)))

/-- The attendance generator canonical string (attendance page
`generateHash`): eventId, name and timestamp concatenated with NO
separator. -/
def attCanon (eventId name timestamp : Str) : Str :=
  eventId ++ name ++ timestamp

/-- `generateHash` of the attendance page: SHA-256 over the UTF-8 bytes of
the separator-free concatenation, rendered as lowercase hex. -/
def generateHashAtt (eventId name timestamp : Str) : Str :=
  digestHex (sha256 (utf8 (attCanon eventId name timestamp)))

/-- The attendance verifier canonical string (`verifyHash` and the inline
body of `loadAttendance` in the dashboard): eventId, name and timestamp
joined WITH pipe separators. -/
def verifyCanonAtt (eventId name timestamp : Str) : Str :=
  eventId ++ '|' :: (name ++ '|' :: timestamp)

/-- The digest the attendance verifier recomputes from a field triple. -/
def verifyHashDigest (eventId name timestamp : Str) : Str :=
  digestHex (sha256 (utf8 (verifyCanonAtt eventId name timestamp)))

/-- `verifyHash` of the dashboard (`page.tsx`): recompute the digest over
the pipe-separated triple and compare to the stored hash. -/
def verifyHash (eventId name timestamp storedHash : Str) : Bool :=
  verifyHashDigest eventId name timestamp == storedHash

/-! ## The JavaScript Date round trip used by the verifiers

Both batch verifiers feed `new Date(record.timestamp).toISOString()` into
the recomputation.  The model covers the ECMA-262 Date Time String Format
for full date-times with an explicit UTC offset (`Z` or `+hh:mm`/`-hh:mm`)
and an optional three-digit millisecond fraction, restricted to instants
from the 1970 epoch up to year 9999; date-times without an offset are
local-time dependent and instants outside the range are unmodelled, and the
parser returns `none` for them (in the browser an unparseable string makes
`toISOString` throw). -/

/-- The numeric value of a decimal digit character, if it is one. -/
def digitVal (c : Char) : Option Nat :=
  if 48 ≤ c.toNat && c.toNat ≤ 57 then some (c.toNat - 48) else none

/-- Two decimal digits. -/
def parse2 (c1 c2 : Char) : Option Nat :=
  match digitVal c1, digitVal c2 with
  | some a, some b => some (10 * a + b)
  | _, _ => none

/-- Three decimal digits. -/
def parse3 (c1 c2 c3 : Char) : Option Nat :=
  match digitVal c1, parse2 c2 c3 with
  | some a, some b => some (100 * a + b)
  | _, _ => none

/-- Four decimal digits. -/
def parse4 (c1 c2 c3 c4 : Char) : Option Nat :=
  match parse2 c1 c2, parse2 c3 c4 with
  | some a, some b => some (100 * a + b)
  | _, _ => none

/-- The UTC offset suffix, in minutes east of UTC. -/
def parseOffset : Str → Option Int
  | ['Z'] => some 0
  | ['+', h1, h2, ':', m1, m2] =>
    match parse2 h1 h2, parse2 m1 m2 with
    | some hh, some mm =>
      if hh ≤ 23 && mm ≤ 59 then some (Int.ofNat (hh * 60 + mm)) else none
    | _, _ => none
  | ['-', h1, h2, ':', m1, m2] =>
    match parse2 h1 h2, parse2 m1 m2 with
    | some hh, some mm =>
      if hh ≤ 23 && mm ≤ 59 then some (-(Int.ofNat (hh * 60 + mm))) else none
    | _, _ => none
  | _ => none

/-- Optional three-digit millisecond fraction, then the offset. -/
def parseFracOffset : Str → Option (Nat × Int)
  | '.' :: f1 :: f2 :: f3 :: rest =>
    match parse3 f1 f2 f3, parseOffset rest with
    | some ms, some off => some (ms, off)
    | _, _ => none
  | rest => (parseOffset rest).map fun off => (0, off)

/-- Proleptic Gregorian leap-year test. -/
def isLeap (y : Nat) : Bool := (y % 4 == 0 && y % 100 != 0) || y % 400 == 0

/-- The month lengths of year `y`, January first. -/
def monthDays (y : Nat) : List Nat :=
  [31, if isLeap y then 29 else 28, 31, 30, 31, 30, 31, 31, 30, 31, 30, 31]

/-- The number of days in month `m` (1-based) of year `y`. -/
def daysInMonth (y m : Nat) : Nat := (monthDays y).getD (m - 1) 31

/-- Days in the `k` calendar years starting at 1970. -/
def daysBeforeYearAux : Nat → Nat
  | 0 => 0
  | k + 1 => daysBeforeYearAux k + (if isLeap (1970 + k) then 366 else 365)

/-- Days from 1970-01-01 to the civil date `y-m-d` (`m`, `d` 1-based). -/
def epochDays (y m d : Nat) : Nat :=
  daysBeforeYearAux (y - 1970) + ((monthDays y).take (m - 1)).foldl (· + ·) 0 +
    (d - 1)

/-- `Date.parse` on the modelled ISO grammar: epoch milliseconds. -/
def jsDateParse (s : Str) : Option Nat :=
  match s with
  | y1 :: y2 :: y3 :: y4 :: '-' :: mo1 :: mo2 :: '-' :: d1 :: d2 :: 'T' ::
      h1 :: h2 :: ':' :: mi1 :: mi2 :: ':' :: s1 :: s2 :: rest =>
    match parse4 y1 y2 y3 y4, parse2 mo1 mo2, parse2 d1 d2, parse2 h1 h2,
        parse2 mi1 mi2, parse2 s1 s2, parseFracOffset rest with
    | some y, some mo, some da, some hh, some mi, some ss, some (ms, off) =>
      if 1970 ≤ y && 1 ≤ mo && mo ≤ 12 && 1 ≤ da && da ≤ daysInMonth y mo &&
          hh ≤ 23 && mi ≤ 59 && ss ≤ 59 then
        let total : Int :=
          Int.ofNat (epochDays y mo da * 86400000 + hh * 3600000 +
            mi * 60000 + ss * 1000 + ms) - off * 60000
        if total < 0 then none else some total.toNat
      else none
    | _, _, _, _, _, _, _ => none
  | _ => none

/-- Recover the civil year and day-of-year from a day count since 1970. -/
def findYearAux : Nat → Nat → Nat → Nat × Nat
  | 0, y, ds => (y, ds)
  | fuel + 1, y, ds =>
    let len := if isLeap y then 366 else 365
    if ds < len then (y, ds) else findYearAux fuel (y + 1) (ds - len)

/-- Recover the month (1-based) and day-of-month from a day-of-year. -/
def findMonthAux : List Nat → Nat → Nat → Nat × Nat
  | [], m, ds => (m, ds)
  | len :: rest, m, ds =>
    if ds < len then (m, ds) else findMonthAux rest (m + 1) (ds - len)

/-- Two zero-padded decimal digits. -/
def pad2 (n : Nat) : Str := [Nat.digitChar (n / 10 % 10), Nat.digitChar (n % 10)]

/-- Three zero-padded decimal digits. -/
def pad3 (n : Nat) : Str :=
  [Nat.digitChar (n / 100 % 10), Nat.digitChar (n / 10 % 10),
   Nat.digitChar (n % 10)]

/-- Four zero-padded decimal digits. -/
def pad4 (n : Nat) : Str :=
  [Nat.digitChar (n / 1000 % 10), Nat.digitChar (n / 100 % 10),
   Nat.digitChar (n / 10 % 10), Nat.digitChar (n % 10)]

/-- `Date.prototype.toISOString`: fixed millisecond-precision UTC
rendering with a trailing `Z` (years up to 9999). -/
def jsToISOString (t : Nat) : Str :=
  let days := t / 86400000
  let msOfDay := t % 86400000
  let yd := findYearAux (days / 365 + 1) 1970 days
  let md := findMonthAux (monthDays yd.1) 1 yd.2
  pad4 yd.1 ++ '-' :: pad2 md.1 ++ '-' :: pad2 (md.2 + 1) ++ 'T' ::
    pad2 (msOfDay / 3600000) ++ ':' :: pad2 (msOfDay / 60000 % 60) ++ ':' ::
    pad2 (msOfDay / 1000 % 60) ++ '.' :: pad3 (msOfDay % 1000) ++ ['Z']

/-- The string `new Date(s).toISOString()` that the batch verifiers feed
into the digest recomputation in place of the stored timestamp. -/
def jsDateReserialize (s : Str) : Option Str :=
  (jsDateParse s).map jsToISOString

/-! ## Data model

Rows of the four tables the integrity scheme touches.  Ids are assigned by
the store on insert; the submission models take the assigned id (or `none`
for an insert failure) as an oracle parameter and their traces list the
writes that took effect. -/

/-- A row of the `votes` table (no digest field; the digest lives in
`vote_proofs`). -/
structure VoteRow where
  id : Str
  election_id : Str
  voter_name : Str
  vote_data : Str
  timestamp : Str
deriving DecidableEq

/-- A row of the `vote_proofs` table: the digest keyed by the vote id. -/
structure VoteProofRow where
  vote_id : Str
  proof_hash : Str
deriving DecidableEq

/-- A row of the `attendance` table.  The attendance submission writes the
digest into the row itself (field `hash`). -/
structure AttendanceRow where
  id : Str
  event_id : Str
  name : Str
  timestamp : Str
  hash : Str
deriving DecidableEq

/-- A row of the `integrity_proofs` table the attendance verifier reads:
a digest keyed by the attendance id. -/
structure IntegrityProofRow where
  attendance_id : Str
  proof_hash : Str
deriving DecidableEq

/-- The store operations the integrity scheme issues. -/
inductive DbOp where
  | insertVote (row : VoteRow)
  | insertVoteProof (row : VoteProofRow)
  | insertAttendance (row : AttendanceRow)
  | insertIntegrityProof (row : IntegrityProofRow)
  | selectVotes (election_id : Str)
  | selectVoteProof (vote_id : Str)
  | selectAttendance (event_id : Str)
  | selectIntegrityProof (attendance_id : Str)
deriving DecidableEq

/-- Whether an operation is a select (read). -/
def DbOp.isSelectOp : DbOp → Bool
  | .selectVotes _ => true
  | .selectVoteProof _ => true
  | .selectAttendance _ => true
  | .selectIntegrityProof _ => true
  | _ => false

/-- Whether an operation writes a proof table (`vote_proofs` or
`integrity_proofs`). -/
def DbOp.isProofWrite : DbOp → Bool
  | .insertVoteProof _ => true
  | .insertIntegrityProof _ => true
  | _ => false

/-- The persisted state: the four tables. -/
structure DB where
  votes : List VoteRow
  vote_proofs : List VoteProofRow
  attendance : List AttendanceRow
  integrity_proofs : List IntegrityProofRow

/-- Apply one operation to the store: inserts append, selects change
nothing. -/
def applyOp (db : DB) : DbOp → DB
  | .insertVote r => { db with votes := db.votes ++ [r] }
  | .insertVoteProof r => { db with vote_proofs := db.vote_proofs ++ [r] }
  | .insertAttendance r => { db with attendance := db.attendance ++ [r] }
  | .insertIntegrityProof r =>
    { db with integrity_proofs := db.integrity_proofs ++ [r] }
  | .selectVotes _ => db
  | .selectVoteProof _ => db
  | .selectAttendance _ => db
  | .selectIntegrityProof _ => db

/-- Apply a trace of operations left to right. -/
def applyTrace (db : DB) (ops : List DbOp) : DB := ops.foldl applyOp db

/-- `.from vote_proofs .eq vote_id .single`: the proof row of a vote. -/
def lookupVoteProof (proofs : List VoteProofRow) (voteId : Str) :
    Option VoteProofRow :=
  proofs.find? fun p => p.vote_id == voteId

/-- `.from integrity_proofs .eq attendance_id .single`: the proof row of an
attendance record. -/
def lookupIntegrityProof (proofs : List IntegrityProofRow) (attId : Str) :
    Option IntegrityProofRow :=
  proofs.find? fun p => p.attendance_id == attId

/-! ## Submission models

`submitVote` (vote page) and `submitAttendance` (attendance page),
translated with the store's responses as oracle parameters: `recordInsert`
is the id the store assigns to the record row (`none` when that insert
errors) and `proofInsertOk` tells whether the proof insert succeeds.  The
returned trace lists the writes that took effect, in order.  `voteData`
stands for `JSON.stringify(selections)`, taken as an opaque serialized
string, and the guard that the parent entity was found is implicit in the
parent id argument. -/

/-- The outcome a submission surfaces to its caller. -/
inductive SubmitResult where
  | success
  | errorRecordInsert
  | errorProofInsert
  | rejectedInput
deriving DecidableEq

/-- `submitVote` of the vote page: guard the trimmed name and the
selection count, hash the pipe-separated canonical string over the trimmed
name, insert the vote row (no digest in it), and only then insert the
`vote_proofs` row referencing the assigned id. -/
def submitVote (electionId voterName voteData : Str) (selCount posCount : Nat)
    (timestamp : Str) (recordInsert : Option Str) (proofInsertOk : Bool) :
    SubmitResult × List DbOp :=
  if jsTrim voterName = [] then (.rejectedInput, [])
  else if selCount ≠ posCount then (.rejectedInput, [])
  else
    let hash := generateHashVote electionId (jsTrim voterName) voteData
      timestamp
    match recordInsert with
    | none => (.errorRecordInsert, [])
    | some newId =>
      let recOp := DbOp.insertVote
        ⟨newId, electionId, jsTrim voterName, voteData, timestamp⟩
      if proofInsertOk then
        (.success, [recOp, .insertVoteProof ⟨newId, hash⟩])
      else
        (.errorProofInsert, [recOp])

/-- `submitAttendance` of the attendance page: guard the trimmed name,
hash the separator-free concatenation over the UNtrimmed name, and insert
a single `attendance` row that carries the trimmed name and the digest
itself; no proof-table row is written. -/
def submitAttendance (eventId name timestamp : Str)
    (recordInsert : Option Str) : SubmitResult × List DbOp :=
  if jsTrim name = [] then (.rejectedInput, [])
  else
    let hash := generateHashAtt eventId name timestamp
    match recordInsert with
    | none => (.errorRecordInsert, [])
    | some newId =>
      (.success,
       [.insertAttendance ⟨newId, eventId, jsTrim name, timestamp, hash⟩])

/-! ## Verification models

The per-record bodies of the `Promise.all(data.map(...))` blocks of
`loadVotes` (vote dashboard) and `loadAttendance` (attendance dashboard):
look up the proof row by the record id (absent proof verifies `false`),
re-serialize the stored timestamp through the Date round trip, rebuild the
pipe-separated canonical string from the persisted fields and compare the
recomputed digest to the stored one.  A timestamp outside the modelled
Date grammar is returned as unverified (in the browser it would make
`toISOString` throw and reject the whole batch). -/

/-- The inline per-record verification of `loadVotes`. -/
def voteVerifyInline (proofs : List VoteProofRow) (r : VoteRow) : Bool :=
  match lookupVoteProof proofs r.id with
  | none => false
  | some p =>
    match jsDateReserialize r.timestamp with
    | none => false
    | some ts =>
      digestHex (sha256 (utf8 (voteCanon r.election_id r.voter_name
        r.vote_data ts))) == p.proof_hash

/-- The inline per-record verification of `loadAttendance`. -/
def attVerifyInline (proofs : List IntegrityProofRow) (r : AttendanceRow) :
    Bool :=
  match lookupIntegrityProof proofs r.id with
  | none => false
  | some p =>
    match jsDateReserialize r.timestamp with
    | none => false
    | some ts =>
      digestHex (sha256 (utf8 (verifyCanonAtt r.event_id r.name ts)))
        == p.proof_hash

/-- The verdict of a vote record as a function of its own proof row alone
(used to state that the verified flag depends on nothing else). -/
def voteVerdict (p : Option VoteProofRow) (r : VoteRow) : Bool :=
  match p with
  | none => false
  | some p =>
    match jsDateReserialize r.timestamp with
    | none => false
    | some ts =>
      digestHex (sha256 (utf8 (voteCanon r.election_id r.voter_name
        r.vote_data ts))) == p.proof_hash

/-- The verdict of an attendance record as a function of its own proof row
alone. -/
def attVerdict (p : Option IntegrityProofRow) (r : AttendanceRow) : Bool :=
  match p with
  | none => false
  | some p =>
    match jsDateReserialize r.timestamp with
    | none => false
    | some ts =>
      digestHex (sha256 (utf8 (verifyCanonAtt r.event_id r.name ts)))
        == p.proof_hash

/-- The batch of `loadVotes`: map the inline verification over the
retrieved records, pairing each record with its verified flag. -/
def loadVotesVerified (proofs : List VoteProofRow) (records : List VoteRow) :
    List (VoteRow × Bool) :=
  records.map fun r => (r, voteVerifyInline proofs r)

/-- The batch of `loadAttendance`. -/
def loadAttendanceVerified (proofs : List IntegrityProofRow)
    (records : List AttendanceRow) : List (AttendanceRow × Bool) :=
  records.map fun r => (r, attVerifyInline proofs r)

/-- The store operations `loadVotes` issues for a retrieved record list:
one select on `votes`, then one select on `vote_proofs` per record. -/
def loadVotesTrace (electionId : Str) (records : List VoteRow) : List DbOp :=
  DbOp.selectVotes electionId ::
    records.map fun r => DbOp.selectVoteProof r.id

/-- The store operations `loadAttendance` issues. -/
def loadAttendanceTrace (eventId : Str) (records : List AttendanceRow) :
    List DbOp :=
  DbOp.selectAttendance eventId ::
    records.map fun r => DbOp.selectIntegrityProof r.id

/-- The standalone single-record verifier `verifyAttendanceRecord` of the
dashboard (defined in the source but not called by the batch; it feeds the
stored timestamp directly, without the Date round trip). -/
def verifyAttendanceRecord (proofs : List IntegrityProofRow)
    (r : AttendanceRow) : Bool :=
  match lookupIntegrityProof proofs r.id with
  | none => false
  | some p => verifyHash r.event_id r.name r.timestamp p.proof_hash

/-- Lowercase hexadecimal digit characters. -/
def isHexLower (c : Char) : Bool :=
  (48 ≤ c.toNat && c.toNat ≤ 57) || (97 ≤ c.toNat && c.toNat ≤ 102)

/-- Neither the first nor the last character is JS whitespace. -/
def noEdgeWhitespace (s : Str) : Bool :=
  ((s.head?.map fun c => !jsWhitespace c).getD true) &&
  ((s.getLast?.map fun c => !jsWhitespace c).getD true)

/-! ## Helper lemmas -/

/-- The trim target `rdropWhile (dropWhile)` form of `jsTrim`. -/
lemma jsTrim_eq_rdropWhile (s : Str) :
    jsTrim s = List.rdropWhile jsWhitespace (s.dropWhile jsWhitespace) := by
  simp [jsTrim, List.rdropWhile]

/-- A string is its own trim iff neither end starts with JS whitespace. -/
lemma jsTrim_eq_self_iff (s : Str) :
    jsTrim s = s ↔ noEdgeWhitespace s = true := by
  rw [jsTrim_eq_rdropWhile]
  constructor
  · intro h
    have hlen1 : (List.rdropWhile jsWhitespace (s.dropWhile jsWhitespace)).length ≤
        (s.dropWhile jsWhitespace).length :=
      (List.rdropWhile_prefix _ _).length_le
    have hlen2 : (s.dropWhile jsWhitespace).length ≤ s.length :=
      (List.dropWhile_suffix _).length_le
    have hlen3 : (List.rdropWhile jsWhitespace (s.dropWhile jsWhitespace)).length = s.length := by
      rw [h]
    have hdw : s.dropWhile jsWhitespace = s :=
      (List.dropWhile_suffix _).eq_of_length (by omega)
    rw [hdw] at h
    have hhead := (List.dropWhile_eq_self_iff).mp hdw
    have hlast := (List.rdropWhile_eq_self_iff).mp h
    cases s with
    | nil => rfl
    | cons a l =>
      have h1 : jsWhitespace a = false := by
        have := hhead (by simp)
        simpa using this
      have h2 : jsWhitespace ((a :: l).getLast (by simp)) = false := by
        have := hlast (by simp)
        simpa using this
      simp [noEdgeWhitespace, h1,
        List.getLast?_eq_getLast (a :: l) (List.cons_ne_nil a l), h2]
  · intro h
    cases s with
    | nil => rfl
    | cons a l =>
      simp [noEdgeWhitespace, List.getLast?_eq_getLast _ (List.cons_ne_nil a l)] at h
      have hdw : (a :: l).dropWhile jsWhitespace = a :: l := by
        rw [List.dropWhile_eq_self_iff]
        intro hl
        simp [h.1]
      rw [hdw]
      rw [List.rdropWhile_eq_self_iff]
      intro hl
      simp [h.2]

/-- Splitting at an unshared pipe is unambiguous. -/
lemma pipe_append_inj {a b r s : Str} (ha : '|' ∉ a) (hb : '|' ∉ b)
    (h : a ++ '|' :: r = b ++ '|' :: s) : a = b ∧ r = s := by
  induction a generalizing b with
  | nil =>
    cases b with
    | nil => simpa using h
    | cons x xs =>
      exfalso
      simp only [List.nil_append, List.cons_append, List.cons.injEq] at h
      apply hb
      rw [← h.1]
      exact List.mem_cons_self _ _
  | cons y ys ih =>
    cases b with
    | nil =>
      exfalso
      simp only [List.cons_append, List.nil_append, List.cons.injEq] at h
      apply ha
      rw [h.1]
      exact List.mem_cons_self _ _
    | cons x xs =>
      simp only [List.cons_append, List.cons.injEq] at h
      have ha' : '|' ∉ ys := fun hm => ha (List.mem_cons_of_mem y hm)
      have hb' : '|' ∉ xs := fun hm => hb (List.mem_cons_of_mem x hm)
      obtain ⟨h1, h2⟩ := ih ha' hb' h.2
      exact ⟨by rw [h.1, h1], h2⟩

/-- Every byte of a word decomposition is below 256. -/
lemma wordBytes_lt (w : Nat) : ∀ b ∈ wordBytes w, b < 256 := by
  intro b hb
  simp only [wordBytes, List.mem_cons, List.not_mem_nil, or_false] at hb
  rcases hb with rfl | rfl | rfl | rfl <;> omega

/-- Every SHA-256 digest byte is below 256. -/
lemma digestBytes_lt (s : H8) : ∀ b ∈ digestBytes s, b < 256 := by
  intro b hb
  simp only [digestBytes, List.mem_flatten, List.mem_map] at hb
  obtain ⟨l, ⟨w, _, rfl⟩, hbl⟩ := hb
  exact wordBytes_lt w b hbl

/-- A SHA-256 digest is 32 bytes. -/
lemma digestBytes_length (s : H8) : (digestBytes s).length = 32 := by
  simp [digestBytes, stateWords, wordBytes]

set_option maxRecDepth 4096 in
/-- Hex rendering of a byte: two characters, both lowercase hex digits. -/
lemma hexByte_ok : ∀ b < 256, (hexByte b).length = 2 ∧
    (hexByte b).all isHexLower = true := by decide

/-- Hex rendering of a byte list below 256: twice the length, all lowercase
hex digits. -/
lemma digestHex_ok (l : List Nat) (h : ∀ b ∈ l, b < 256) :
    (digestHex l).length = 2 * l.length ∧ (digestHex l).all isHexLower = true := by
  induction l with
  | nil => simp [digestHex]
  | cons b rest ih =>
    have hb := hexByte_ok b (h b (List.mem_cons_self b rest))
    have hr := ih fun x hx => h x (List.mem_cons_of_mem b hx)
    have hstep : digestHex (b :: rest) = hexByte b ++ digestHex rest := by
      simp [digestHex]
    rw [hstep]
    constructor
    · simp only [List.length_append, hb.1, hr.1, List.length_cons]
      omega
    · simp only [List.all_append, hb.2, hr.2, Bool.and_self]

/-- A select never changes the store. -/
lemma applyOp_select (db : DB) (op : DbOp) (h : op.isSelectOp = true) :
    applyOp db op = db := by
  cases op <;> first | rfl | simp [DbOp.isSelectOp] at h

/-- A trace of selects never changes the store. -/
lemma applyTrace_selects (ops : List DbOp)
    (h : ∀ op ∈ ops, op.isSelectOp = true) (db : DB) :
    applyTrace db ops = db := by
  induction ops generalizing db with
  | nil => rfl
  | cons o rest ih =>
    simp only [applyTrace, List.foldl_cons]
    rw [applyOp_select db o (h o (List.mem_cons_self o rest))]
    exact ih (fun op hop => h op (List.mem_cons_of_mem o hop)) db

/-! ## The claims -/

/-- Claim C1 (code bug): the attendance generator and the attendance
verifier disagree.  The generator hashes the separator-free concatenation
while `verifyHash` rebuilds a pipe-separated string, so the two canonical
strings differ for EVERY field triple (their lengths differ by two), and
at the concrete triple eventId e, name n, timestamp t the two digests
differ — a genuine record can never verify. -/
theorem c1_generator_verifier_disagree :
    (∀ eventId name timestamp : Str,
      attCanon eventId name timestamp ≠ verifyCanonAtt eventId name timestamp) ∧
    generateHashAtt "e".data "n".data "t".data ≠
      verifyHashDigest "e".data "n".data "t".data := by
  constructor
  · intro e n t h
    have hl := congrArg List.length h
    simp only [attCanon, verifyCanonAtt, List.length_append, List.length_cons]
      at hl
    omega
  · decide

/-- Claim C3: a record whose proof lookup comes back empty verifies as
`false`, for the attendance batch body and the vote batch body alike. -/
theorem c3_missing_proof_false :
    ∀ (ap : List IntegrityProofRow) (ar : AttendanceRow)
      (vp : List VoteProofRow) (vr : VoteRow),
    lookupIntegrityProof ap ar.id = none →
    lookupVoteProof vp vr.id = none →
    attVerifyInline ap ar = false ∧ voteVerifyInline vp vr = false := by
  intro ap ar vp vr h1 h2
  constructor
  · simp [attVerifyInline, h1]
  · simp [voteVerifyInline, h2]

/-- Witness for C3 at the empty proof table and concrete rows. -/
theorem c3_missing_proof_false_witness :
    attVerifyInline []
      ⟨"i".data, "e".data, "n".data, "t".data, "h".data⟩ = false ∧
    voteVerifyInline []
      ⟨"i".data, "e".data, "v".data, "d".data, "t".data⟩ = false :=
  c3_missing_proof_false [] ⟨"i".data, "e".data, "n".data, "t".data, "h".data⟩
    [] ⟨"i".data, "e".data, "v".data, "d".data, "t".data⟩ rfl rfl

/-- Claim C4, counterexample: neither canonicalization is injective.  The
attendance scheme collides on a boundary shift, and the vote scheme
collides when a field contains the pipe separator. -/
theorem c4_canonicalization_not_injective :
    attCanon "ab".data "".data "c".data = attCanon "a".data "b".data "c".data ∧
    ("ab".data : Str) ≠ "a".data ∧
    voteCanon "a|b".data "c".data "d".data "e".data =
      voteCanon "a".data "b|c".data "d".data "e".data ∧
    ("a|b".data : Str) ≠ "a".data := by
  refine ⟨by decide, by decide, by decide, by decide⟩

/-- Claim C4 as amended: the vote canonicalization is injective on field
tuples whose first three fields are pipe-free (the last field needs no
restriction); the attendance scheme stays non-injective. -/
theorem c4_vote_canon_injective_on_pipe_free :
    ∀ (a b c d a' b' c' d' : Str),
    '|' ∉ a → '|' ∉ b → '|' ∉ c → '|' ∉ a' → '|' ∉ b' → '|' ∉ c' →
    voteCanon a b c d = voteCanon a' b' c' d' →
    a = a' ∧ b = b' ∧ c = c' ∧ d = d' := by
  intro a b c d a' b' c' d' ha hb hc ha' hb' hc' h
  simp only [voteCanon] at h
  obtain ⟨h1, h2⟩ := pipe_append_inj ha ha' h
  obtain ⟨h3, h4⟩ := pipe_append_inj hb hb' h2
  obtain ⟨h5, h6⟩ := pipe_append_inj hc hc' h4
  exact ⟨h1, h3, h5, h6⟩

/-- Witness for the amended C4 at a concrete pipe-free tuple. -/
theorem c4_vote_canon_injective_witness :
    ("x".data : Str) = "x".data ∧ ("y".data : Str) = "y".data ∧
    ("z".data : Str) = "z".data ∧ ("w".data : Str) = "w".data :=
  c4_vote_canon_injective_on_pipe_free "x".data "y".data "z".data "w".data
    "x".data "y".data "z".data "w".data (by decide) (by decide) (by decide)
    (by decide) (by decide) (by decide) rfl

/-- Claim C7: batch verification is the element-wise map of the
per-record verification, for both dashboards: the output is literally the
map, the indexed entries correspond to the input order, and the verified
flag of a record factors through the lookup of that record's own proof
row (so it depends only on the record's own fields and its own proof). -/
theorem c7_batch_is_elementwise_map :
    ∀ (vp : List VoteProofRow) (vrs : List VoteRow)
      (ap : List IntegrityProofRow) (ars : List AttendanceRow) (i : Nat),
    loadVotesVerified vp vrs = vrs.map (fun r => (r, voteVerifyInline vp r)) ∧
    (loadVotesVerified vp vrs).length = vrs.length ∧
    (loadVotesVerified vp vrs).get? i =
      (vrs.get? i).map (fun r => (r, voteVerifyInline vp r)) ∧
    (∀ r, voteVerifyInline vp r = voteVerdict (lookupVoteProof vp r.id) r) ∧
    loadAttendanceVerified ap ars =
      ars.map (fun r => (r, attVerifyInline ap r)) ∧
    (loadAttendanceVerified ap ars).length = ars.length ∧
    (loadAttendanceVerified ap ars).get? i =
      (ars.get? i).map (fun r => (r, attVerifyInline ap r)) ∧
    (∀ r, attVerifyInline ap r = attVerdict (lookupIntegrityProof ap r.id) r) := by
  intro vp vrs ap ars i
  refine ⟨rfl, by simp [loadVotesVerified], by simp [loadVotesVerified],
    fun r => rfl, rfl, by simp [loadAttendanceVerified],
    by simp [loadAttendanceVerified], fun r => rfl⟩

/-- Claim C8: when the vote record insert fails, the failure is surfaced,
the submission aborts with an empty write trace, and in particular the
proofs table is untouched. -/
theorem c8_record_insert_failure_aborts :
    ∀ (electionId voterName voteData : Str) (selCount posCount : Nat)
      (timestamp : Str) (proofInsertOk : Bool) (db : DB),
    jsTrim voterName ≠ [] → selCount = posCount →
    submitVote electionId voterName voteData selCount posCount timestamp
        none proofInsertOk = (.errorRecordInsert, []) ∧
    applyTrace db (submitVote electionId voterName voteData selCount posCount
      timestamp none proofInsertOk).2 = db := by
  intro eid vn vd sc pc ts pok db h1 h2
  have hs : submitVote eid vn vd sc pc ts none pok = (.errorRecordInsert, []) := by
    simp [submitVote, h1, h2]
  exact ⟨hs, by rw [hs]; rfl⟩

/-- Witness for C8 at a concrete failing submission. -/
theorem c8_record_insert_failure_witness :
    submitVote "el".data "v".data "d".data 1 1 "ts".data none true =
      (.errorRecordInsert, []) ∧
    applyTrace ⟨[], [], [], []⟩ (submitVote "el".data "v".data "d".data 1 1
      "ts".data none true).2 = ⟨[], [], [], []⟩ :=
  c8_record_insert_failure_aborts "el".data "v".data "d".data 1 1 "ts".data
    true ⟨[], [], [], []⟩ (by decide) rfl

/-- Claim C9: every generated digest string is exactly 64 characters and
all of them are lowercase hexadecimal digits, for the vote scheme and the
attendance scheme alike. -/
theorem c9_digest_shape :
    ∀ (eid vn vd ts aeid an ats : Str),
    (generateHashVote eid vn vd ts).length = 64 ∧
    (generateHashVote eid vn vd ts).all isHexLower = true ∧
    (generateHashAtt aeid an ats).length = 64 ∧
    (generateHashAtt aeid an ats).all isHexLower = true := by
  intro eid vn vd ts aeid an ats
  have hv := digestHex_ok (sha256 (utf8 (voteCanon eid vn vd ts)))
    (by simp only [sha256]; exact digestBytes_lt _)
  have ha := digestHex_ok (sha256 (utf8 (attCanon aeid an ats)))
    (by simp only [sha256]; exact digestBytes_lt _)
  have hlv : (sha256 (utf8 (voteCanon eid vn vd ts))).length = 32 := by
    simp only [sha256]; exact digestBytes_length _
  have hla : (sha256 (utf8 (attCanon aeid an ats))).length = 32 := by
    simp only [sha256]; exact digestBytes_length _
  refine ⟨?_, hv.2, ?_, ha.2⟩
  · simpa [generateHashVote, hlv] using hv.1
  · simpa [generateHashAtt, hla] using ha.1

/-- Claim C10: batch verification is read-only.  Every operation either
dashboard issues is a select, and replaying the trace against any store
state leaves it unchanged. -/
theorem c10_batch_read_only :
    ∀ (eventId : Str) (ars : List AttendanceRow)
      (electionId : Str) (vrs : List VoteRow) (db : DB),
    (loadAttendanceTrace eventId ars).all DbOp.isSelectOp = true ∧
    applyTrace db (loadAttendanceTrace eventId ars) = db ∧
    (loadVotesTrace electionId vrs).all DbOp.isSelectOp = true ∧
    applyTrace db (loadVotesTrace electionId vrs) = db := by
  intro eid ars elid vrs db
  have hA : ∀ op ∈ loadAttendanceTrace eid ars, op.isSelectOp = true := by
    intro op hop
    simp only [loadAttendanceTrace, List.mem_cons, List.mem_map] at hop
    rcases hop with rfl | ⟨r, _, rfl⟩ <;> rfl
  have hV : ∀ op ∈ loadVotesTrace elid vrs, op.isSelectOp = true := by
    intro op hop
    simp only [loadVotesTrace, List.mem_cons, List.mem_map] at hop
    rcases hop with rfl | ⟨r, _, rfl⟩ <;> rfl
  exact ⟨List.all_eq_true.mpr hA, applyTrace_selects _ hA db,
    List.all_eq_true.mpr hV, applyTrace_selects _ hV db⟩

/-- Claim C2, counterexample: the batch verifier does NOT feed the stored
timestamp string into the recomputation — it feeds the Date round trip
`new Date(stored).toISOString()`.  At the stored rendering with an
explicit `+00:00` offset the round trip produces a different string, and
a proof whose digest was computed over the exact stored string is
reported unverified. -/
theorem c2_timestamp_reserialized :
    jsDateReserialize "2024-01-15T09:30:00+00:00".data =
      some "2024-01-15T09:30:00.000Z".data ∧
    ("2024-01-15T09:30:00.000Z".data : Str) ≠
      "2024-01-15T09:30:00+00:00".data ∧
    attVerifyInline
      [⟨"i".data, verifyHashDigest "e".data "n".data
        "2024-01-15T09:30:00+00:00".data⟩]
      ⟨"i".data, "e".data, "n".data, "2024-01-15T09:30:00+00:00".data,
        "x".data⟩ = false := by
  refine ⟨by decide, by decide, by decide⟩

/-- Claim C2 as amended: for every stored record, both verifiers feed the
re-serialization of the stored timestamp (parse then `toISOString`), not
the stored string itself; the digest each compares against the proof is
computed over that round-tripped string — for the attendance batch body
and the vote batch body alike — and the round trip is the identity on
strings already in the canonical millisecond-UTC form. -/
theorem c2_verifier_uses_roundtrip :
    ∀ (aproofs : List IntegrityProofRow) (ar : AttendanceRow)
      (ap : IntegrityProofRow) (ta : Nat)
      (vproofs : List VoteProofRow) (vr : VoteRow) (vp : VoteProofRow)
      (tv : Nat),
    lookupIntegrityProof aproofs ar.id = some ap →
    jsDateParse ar.timestamp = some ta →
    lookupVoteProof vproofs vr.id = some vp →
    jsDateParse vr.timestamp = some tv →
    attVerifyInline aproofs ar =
      (digestHex (sha256 (utf8 (verifyCanonAtt ar.event_id ar.name
        (jsToISOString ta)))) == ap.proof_hash) ∧
    voteVerifyInline vproofs vr =
      (digestHex (sha256 (utf8 (voteCanon vr.election_id vr.voter_name
        vr.vote_data (jsToISOString tv)))) == vp.proof_hash) ∧
    jsDateReserialize "2024-01-15T09:30:00.000Z".data =
      some "2024-01-15T09:30:00.000Z".data := by
  intro aproofs ar ap ta vproofs vr vp tv h1 h2 h3 h4
  refine ⟨?_, ?_, by decide⟩
  · simp [attVerifyInline, h1, jsDateReserialize, h2]
  · simp [voteVerifyInline, h3, jsDateReserialize, h4]

/-- Witness for the amended C2 at a concrete record and proof row of each
scheme. -/
theorem c2_verifier_uses_roundtrip_witness :
    attVerifyInline [⟨"i".data, "h".data⟩]
      ⟨"i".data, "e".data, "n".data, "2024-01-15T09:30:00.000Z".data,
        "x".data⟩ =
      (digestHex (sha256 (utf8 (verifyCanonAtt "e".data "n".data
        (jsToISOString 1705311000000)))) == "h".data) ∧
    voteVerifyInline [⟨"j".data, "g".data⟩]
      ⟨"j".data, "el".data, "v".data, "d".data,
        "2024-01-15T09:30:00.000Z".data⟩ =
      (digestHex (sha256 (utf8 (voteCanon "el".data "v".data "d".data
        (jsToISOString 1705311000000)))) == "g".data) ∧
    jsDateReserialize "2024-01-15T09:30:00.000Z".data =
      some "2024-01-15T09:30:00.000Z".data :=
  c2_verifier_uses_roundtrip [⟨"i".data, "h".data⟩]
    ⟨"i".data, "e".data, "n".data, "2024-01-15T09:30:00.000Z".data,
      "x".data⟩
    ⟨"i".data, "h".data⟩ 1705311000000 [⟨"j".data, "g".data⟩]
    ⟨"j".data, "el".data, "v".data, "d".data,
      "2024-01-15T09:30:00.000Z".data⟩
    ⟨"j".data, "g".data⟩ 1705311000000 (by decide) (by decide) (by decide)
    (by decide)

/-- Claim C5 (code bug): an attendance submission never writes a proof
row — the digest is written INTO the attendance row itself — while a vote
submission does follow the record-then-proof two-step shape. -/
theorem c5_attendance_stores_digest_inline :
    (∀ (eventId name timestamp : Str) (recordInsert : Option Str),
      ((submitAttendance eventId name timestamp recordInsert).2.filter
        DbOp.isProofWrite) = []) ∧
    submitAttendance "e".data "n".data "t".data (some "i".data) =
      (.success, [DbOp.insertAttendance ⟨"i".data, "e".data, "n".data,
        "t".data, generateHashAtt "e".data "n".data "t".data⟩]) ∧
    submitVote "el".data "v".data "d".data 1 1 "ts".data (some "vi".data)
        true =
      (.success, [DbOp.insertVote ⟨"vi".data, "el".data, "v".data, "d".data,
        "ts".data⟩,
       DbOp.insertVoteProof ⟨"vi".data,
        generateHashVote "el".data "v".data "d".data "ts".data⟩]) := by
  refine ⟨?_, by decide, by decide⟩
  intro eid nm ts res
  by_cases h : jsTrim nm = []
  · simp [submitAttendance, h]
  · cases res <;> simp [submitAttendance, h, DbOp.isProofWrite]

/-- Claim C6, counterexample: the name a space b is not whitespace-free,
yet the persisted name equals the name hashed into the stored digest (the
trim only strips the ends, and the untrimmed name equals the trimmed one
here despite the interior space). -/
theorem c6_interior_whitespace_coincides :
    (submitAttendance "e".data "a b".data "t".data (some "i".data)).2 =
      [DbOp.insertAttendance ⟨"i".data, "e".data, "a b".data, "t".data,
        generateHashAtt "e".data "a b".data "t".data⟩] ∧
    jsWhitespace ' ' = true ∧ ' ' ∈ "a b".data := by
  refine ⟨by decide, by decide, by decide⟩

/-- Claim C6 as amended: the stored digest is computed over the untrimmed
name while the persisted row carries the trimmed name, and the two
coincide exactly when the name has no LEADING or TRAILING whitespace
(interior whitespace is preserved by the trim). -/
theorem c6_hash_untrimmed_store_trimmed :
    ∀ (eventId name timestamp newId : Str),
    jsTrim name ≠ [] →
    submitAttendance eventId name timestamp (some newId) =
      (.success, [DbOp.insertAttendance ⟨newId, eventId, jsTrim name,
        timestamp, generateHashAtt eventId name timestamp⟩]) ∧
    ((jsTrim name = name) ↔ noEdgeWhitespace name = true) := by
  intro eid nm ts nid h
  exact ⟨by simp [submitAttendance, h], jsTrim_eq_self_iff nm⟩

/-- Witness for the amended C6 at a concrete submission. -/
theorem c6_hash_untrimmed_store_trimmed_witness :
    submitAttendance "e".data " n ".data "t".data (some "i".data) =
      (.success, [DbOp.insertAttendance ⟨"i".data, "e".data,
        jsTrim " n ".data, "t".data,
        generateHashAtt "e".data " n ".data "t".data⟩]) ∧
    ((jsTrim " n ".data = " n ".data) ↔
      noEdgeWhitespace " n ".data = true) :=
  c6_hash_untrimmed_store_trimmed "e".data " n ".data "t".data "i".data
    (by decide)
